import Mathlib

/-!
Verification of the Smart Health Tracker portal (src/core/views.py).

The request handlers are embedded shallowly: each handler becomes a pure
function from the acting user's role (and, where the handler filters by
ownership, the acting user's id) and the current time to a transformer of
the persisted record(s).  Django model instances become Lean structures;
`timezone.now()` becomes an explicit `now` argument; a `get_object_or_404`
miss or a failed role check leaves the store unchanged (the handler
redirects without touching the record).  Timestamps are naturals for the
SOS/message code (only equality matters there) and rationals for the task
timer (where elapsed seconds are divided by 60).
-/

namespace HealthTracker

/-- An SOS alert record (model `SOSAlert`): status string, the two
acknowledgment flags, and the two optional timestamps. -/
structure SOSAlert where
  status : String
  acknowledged_by_doctor : Bool
  acknowledged_by_therapist : Bool
  acknowledged_at : Option Nat
  resolved_at : Option Nat
deriving DecidableEq, Repr

/-- Handler `acknowledge_sos_alert` (views.py:933-959), acting on the fetched alert.
A role other than doctor/therapist is redirected away, leaving the alert
unchanged.  Otherwise the caller's flag is set; then, if both flags hold,
status becomes `acknowledged` and `acknowledged_at` is (re)assigned `now`;
otherwise `acknowledged_at` is set to `now` only when it was unset. -/
def acknowledge_sos_alert (role : String) (now : Nat) (a : SOSAlert) : SOSAlert :=
  if ¬ (role = "doctor" ∨ role = "therapist") then a
  else
    let a1 :=
      if role = "doctor" then { a with acknowledged_by_doctor := true }
      else if role = "therapist" then { a with acknowledged_by_therapist := true }
      else a
    if a1.acknowledged_by_doctor ∧ a1.acknowledged_by_therapist then
      { a1 with status := "acknowledged", acknowledged_at := some now }
    else if a1.acknowledged_at = none then
      { a1 with acknowledged_at := some now }
    else a1

/-- Handler `resolve_sos_alert` (views.py:962-978), acting on the fetched alert.
A role other than doctor/therapist is redirected away; otherwise the status
becomes `resolved` and `resolved_at` is set to `now`, unconditionally. -/
def resolve_sos_alert (role : String) (now : Nat) (a : SOSAlert) : SOSAlert :=
  if ¬ (role = "doctor" ∨ role = "therapist") then a
  else { a with status := "resolved", resolved_at := some now }

end HealthTracker

namespace HealthTracker

theorem ack_doctor_keeps_therapist (now : Nat) (a : SOSAlert)
    (h : a.acknowledged_by_therapist = false) :
    (acknowledge_sos_alert "doctor" now a).acknowledged_by_therapist = false := by
  simp [acknowledge_sos_alert, h]
  split <;> simp [h]

theorem ack_doctor_keeps_status (now : Nat) (a : SOSAlert)
    (h : a.acknowledged_by_therapist = false) :
    (acknowledge_sos_alert "doctor" now a).status = a.status := by
  simp [acknowledge_sos_alert, h]
  split <;> simp

theorem ack_therapist_keeps_doctor (now : Nat) (a : SOSAlert)
    (h : a.acknowledged_by_doctor = false) :
    (acknowledge_sos_alert "therapist" now a).acknowledged_by_doctor = false := by
  simp [acknowledge_sos_alert, h]
  split <;> simp [h]

theorem ack_therapist_keeps_status (now : Nat) (a : SOSAlert)
    (h : a.acknowledged_by_doctor = false) :
    (acknowledge_sos_alert "therapist" now a).status = a.status := by
  simp [acknowledge_sos_alert, h]
  split <;> simp

theorem ack_fold_doctor_only (ns : List Nat) (a : SOSAlert)
    (hs : a.status = "active") (ht : a.acknowledged_by_therapist = false) :
    (ns.foldl (fun s n => acknowledge_sos_alert "doctor" n s) a).status = "active" := by
  induction ns generalizing a with
  | nil => simpa
  | cons n ns ih =>
    simp only [List.foldl_cons]
    exact ih _ ((ack_doctor_keeps_status n a ht).trans hs)
      (ack_doctor_keeps_therapist n a ht)

theorem ack_fold_therapist_only (ns : List Nat) (a : SOSAlert)
    (hs : a.status = "active") (hd : a.acknowledged_by_doctor = false) :
    (ns.foldl (fun s n => acknowledge_sos_alert "therapist" n s) a).status = "active" := by
  induction ns generalizing a with
  | nil => simpa
  | cons n ns ih =>
    simp only [List.foldl_cons]
    exact ih _ ((ack_therapist_keeps_status n a hd).trans hs)
      (ack_therapist_keeps_doctor n a hd)

/-- C1: starting from an `active` alert with both acknowledgment flags false,
acknowledging by a doctor and then a therapist (or vice versa) yields status
`acknowledged`, while any sequence of acknowledgments by only one of the two
roles leaves the status `active`. -/
theorem C1_joint_acknowledgment (a : SOSAlert)
    (hs : a.status = "active")
    (hd : a.acknowledged_by_doctor = false)
    (ht : a.acknowledged_by_therapist = false) :
    (∀ n1 n2 : Nat,
      (acknowledge_sos_alert "therapist" n2
        (acknowledge_sos_alert "doctor" n1 a)).status = "acknowledged" ∧
      (acknowledge_sos_alert "doctor" n2
        (acknowledge_sos_alert "therapist" n1 a)).status = "acknowledged") ∧
    (∀ ns : List Nat,
      (ns.foldl (fun s n => acknowledge_sos_alert "doctor" n s) a).status = "active" ∧
      (ns.foldl (fun s n => acknowledge_sos_alert "therapist" n s) a).status = "active") := by
  refine ⟨fun n1 n2 => ?_, fun ns => ⟨ack_fold_doctor_only ns a hs ht,
    ack_fold_therapist_only ns a hs hd⟩⟩
  constructor
  · simp [acknowledge_sos_alert, hd, ht]
    split <;> simp
  · simp [acknowledge_sos_alert, hd, ht]
    split <;> simp

theorem C1_joint_acknowledgment_witness :
    let a : SOSAlert := ⟨"active", false, false, none, none⟩
    (acknowledge_sos_alert "therapist" 2
      (acknowledge_sos_alert "doctor" 1 a)).status = "acknowledged" ∧
    (([5, 6, 7] : List Nat).foldl
      (fun s n => acknowledge_sos_alert "doctor" n s) a).status = "active" :=
  ⟨((C1_joint_acknowledgment _ rfl rfl rfl).1 1 2).1,
   ((C1_joint_acknowledgment _ rfl rfl rfl).2 [5, 6, 7]).1⟩

/-- C2 counterexample: for the alert `⟨active, false, false, none, none⟩`, the
first acknowledgment (doctor, at time 10) sets `acknowledged_at = some 10`,
but the therapist's later acknowledgment at time 20 — which makes both flags
true — overwrites it to `some 20`, contradicting the claim that once set,
`acknowledged_at` is never changed by a later acknowledgment. -/
theorem C2_counterexample :
    (acknowledge_sos_alert "doctor" 10
      ⟨"active", false, false, none, none⟩).acknowledged_at = some 10 ∧
    (acknowledge_sos_alert "therapist" 20 (acknowledge_sos_alert "doctor" 10
      ⟨"active", false, false, none, none⟩)).acknowledged_at = some 20 ∧
    (acknowledge_sos_alert "therapist" 20 (acknowledge_sos_alert "doctor" 10
      ⟨"active", false, false, none, none⟩)).acknowledged_at ≠ some 10 := by
  refine ⟨by decide, by decide, by decide⟩

/-- C2 amended: an acknowledgment by a doctor or therapist sets
`acknowledged_at` to the current time when it was unset, and leaves it
unchanged when already set — except that the acknowledgment after which both
flags are true always overwrites `acknowledged_at` with the current time. -/
theorem C2_acknowledged_at (role : String) (now : Nat) (a : SOSAlert)
    (hr : role = "doctor" ∨ role = "therapist") :
    (acknowledge_sos_alert role now a).acknowledged_at =
      if (acknowledge_sos_alert role now a).acknowledged_by_doctor
          ∧ (acknowledge_sos_alert role now a).acknowledged_by_therapist then
        some now
      else if a.acknowledged_at = none then some now
      else a.acknowledged_at := by
  rcases hr with hr | hr <;> subst hr <;>
    simp [acknowledge_sos_alert] <;> split <;> simp_all <;> split <;> simp_all

theorem C2_acknowledged_at_witness :
    ("doctor" = "doctor" ∨ "doctor" = "therapist") ∧
    (acknowledge_sos_alert "doctor" 10
      (⟨"active", false, false, none, none⟩ : SOSAlert)).acknowledged_at =
      if (acknowledge_sos_alert "doctor" 10
          (⟨"active", false, false, none, none⟩ : SOSAlert)).acknowledged_by_doctor
          ∧ (acknowledge_sos_alert "doctor" 10
          (⟨"active", false, false, none, none⟩ : SOSAlert)).acknowledged_by_therapist then
        some 10
      else if (⟨"active", false, false, none, none⟩ : SOSAlert).acknowledged_at = none then
        some 10
      else (⟨"active", false, false, none, none⟩ : SOSAlert).acknowledged_at :=
  ⟨Or.inl rfl, C2_acknowledged_at "doctor" 10 _ (Or.inl rfl)⟩

/-- C3 counterexample: the alert `⟨resolved, true, false, some 3, some 5⟩` has
status `resolved`, yet a therapist acknowledgment at time 30 makes both flags
true and changes the status to `acknowledged` — so `resolved` is not terminal
under the alert's step relation. -/
theorem C3_counterexample :
    (acknowledge_sos_alert "therapist" 30
      ⟨"resolved", true, false, some 3, some 5⟩).status = "acknowledged" ∧
    (acknowledge_sos_alert "therapist" 30
      ⟨"resolved", true, false, some 3, some 5⟩).status ≠ "resolved" := by
  refine ⟨by decide, by decide⟩

theorem ack_status_char (role : String) (now : Nat) (a : SOSAlert) :
    (acknowledge_sos_alert role now a).status =
      if (role = "doctor" ∨ role = "therapist") ∧
          (acknowledge_sos_alert role now a).acknowledged_by_doctor = true ∧
          (acknowledge_sos_alert role now a).acknowledged_by_therapist = true then
        "acknowledged"
      else a.status := by
  by_cases hr : role = "doctor" ∨ role = "therapist"
  · rcases hr with hr | hr <;> subst hr <;>
      simp [acknowledge_sos_alert] <;> split <;> simp_all <;> split <;> simp_all
  · simp [acknowledge_sos_alert, hr]

/-- C3 amended: a `resolved` alert stays `resolved` under any resolve
operation, and under an acknowledgment it either stays `resolved` or — when
the acknowledgment makes both flags true — moves back to `acknowledged`. -/
theorem C3_resolved_near_terminal (a : SOSAlert) (role : String) (now : Nat)
    (h : a.status = "resolved") :
    (resolve_sos_alert role now a).status = "resolved" ∧
    ((acknowledge_sos_alert role now a).status = "resolved" ∨
      ((acknowledge_sos_alert role now a).status = "acknowledged" ∧
        (acknowledge_sos_alert role now a).acknowledged_by_doctor = true ∧
        (acknowledge_sos_alert role now a).acknowledged_by_therapist = true)) := by
  constructor
  · unfold resolve_sos_alert
    split
    · exact h
    · rfl
  · have hc := ack_status_char role now a
    by_cases hb : (role = "doctor" ∨ role = "therapist") ∧
        (acknowledge_sos_alert role now a).acknowledged_by_doctor = true ∧
        (acknowledge_sos_alert role now a).acknowledged_by_therapist = true
    · exact Or.inr ⟨by rw [hc, if_pos hb], hb.2.1, hb.2.2⟩
    · exact Or.inl (by rw [hc, if_neg hb, h])

theorem C3_resolved_near_terminal_witness :
    (⟨"resolved", false, false, none, some 5⟩ : SOSAlert).status = "resolved" ∧
    ((resolve_sos_alert "doctor" 9
      (⟨"resolved", false, false, none, some 5⟩ : SOSAlert)).status = "resolved" ∧
    ((acknowledge_sos_alert "doctor" 9
      (⟨"resolved", false, false, none, some 5⟩ : SOSAlert)).status = "resolved" ∨
      ((acknowledge_sos_alert "doctor" 9
        (⟨"resolved", false, false, none, some 5⟩ : SOSAlert)).status = "acknowledged" ∧
        (acknowledge_sos_alert "doctor" 9
          (⟨"resolved", false, false, none, some 5⟩ : SOSAlert)).acknowledged_by_doctor = true ∧
        (acknowledge_sos_alert "doctor" 9
          (⟨"resolved", false, false, none, some 5⟩ : SOSAlert)).acknowledged_by_therapist = true))) :=
  ⟨rfl, C3_resolved_near_terminal _ "doctor" 9 rfl⟩

/-- C4: resolving an `active` or `acknowledged` alert as a doctor or
therapist always sets status `resolved` and `resolved_at = now`, regardless
of the acknowledgment flags. -/
theorem C4_resolve_sets_resolved (a : SOSAlert) (role : String) (now : Nat)
    (hr : role = "doctor" ∨ role = "therapist")
    (_hs : a.status = "active" ∨ a.status = "acknowledged") :
    (resolve_sos_alert role now a).status = "resolved" ∧
    (resolve_sos_alert role now a).resolved_at = some now := by
  rcases hr with hr | hr <;> subst hr <;> simp [resolve_sos_alert]

theorem C4_resolve_sets_resolved_witness :
    ("therapist" = "doctor" ∨ "therapist" = "therapist") ∧
    ((⟨"active", true, false, some 1, none⟩ : SOSAlert).status = "active" ∨
      (⟨"active", true, false, some 1, none⟩ : SOSAlert).status = "acknowledged") ∧
    (resolve_sos_alert "therapist" 7
      (⟨"active", true, false, some 1, none⟩ : SOSAlert)).status = "resolved" ∧
    (resolve_sos_alert "therapist" 7
      (⟨"active", true, false, some 1, none⟩ : SOSAlert)).resolved_at = some 7 :=
  ⟨Or.inr rfl, Or.inl rfl,
    C4_resolve_sets_resolved _ "therapist" 7 (Or.inr rfl) (Or.inl rfl)⟩

/-! ### Task timer -/

/-- Python's built-in `round` applied to an exact rational: nearest integer,
ties broken to the even integer (banker's rounding). -/
def pyRound (q : ℚ) : ℤ :=
  if q - ⌊q⌋ < 1/2 then ⌊q⌋
  else if 1/2 < q - ⌊q⌋ then ⌊q⌋ + 1
  else if ⌊q⌋ % 2 = 0 then ⌊q⌋ else ⌊q⌋ + 1

/-- A patient task record (model `PatientTask`).  Timestamps are rationals
measured in seconds, so that `(now - started_at).total_seconds() / 60` is
exact. -/
structure PatientTask where
  patient : Nat
  task_name : String
  status : String
  started_at : Option ℚ
  completed_at : Option ℚ
  duration_minutes : Option ℤ
deriving DecidableEq, Repr

/-- Handler `complete_task` (views.py:257-284).  A non-patient role is redirected
away; a task not owned by the acting user raises 404; both leave the task
unchanged.  An `in_progress` task gets `duration_minutes = max 1
(round ((now - started_at) / 60))` (or 1 when `started_at` is null),
`completed_at = now` and status `completed`; any other status is a warning
no-op. -/
def complete_task (role : String) (userId : Nat) (now : ℚ) (t : PatientTask) :
    PatientTask :=
  if role ≠ "patient" then t
  else if t.patient ≠ userId then t
  else if t.status = "in_progress" then
    match t.started_at with
    | some s =>
        { t with duration_minutes := some (max 1 (pyRound ((now - s) / 60))),
                 completed_at := some now, status := "completed" }
    | none =>
        { t with duration_minutes := some 1,
                 completed_at := some now, status := "completed" }
  else t

theorem abs_pyRound_sub_le (q : ℚ) : |((pyRound q : ℤ) : ℚ) - q| ≤ 1/2 := by
  have h1 : ((⌊q⌋ : ℤ) : ℚ) ≤ q := Int.floor_le q
  have h2 : q < ⌊q⌋ + 1 := Int.lt_floor_add_one q
  unfold pyRound
  split
  · next h => rw [abs_sub_comm, abs_of_nonneg (by linarith)]; linarith
  · next h =>
    split
    · next h3 => push_cast; rw [abs_of_nonneg (by linarith)]; linarith
    · next h3 =>
      have he : q - ⌊q⌋ = 1/2 := le_antisymm (not_lt.mp h3) (not_lt.mp h)
      split
      · rw [abs_sub_comm, abs_of_nonneg (by linarith)]; linarith
      · push_cast; rw [abs_of_nonneg (by linarith)]; linarith

theorem max_one_pyRound_spec (e : ℚ) :
    1 ≤ max 1 (pyRound e) ∧
    (|((max 1 (pyRound e) : ℤ) : ℚ) - e| ≤ 1/2 ∨
      (e < 1 ∧ max 1 (pyRound e) = 1)) := by
  refine ⟨le_max_left _ _, ?_⟩
  rcases le_or_lt 1 (pyRound e) with hge | hlt
  · rw [max_eq_right hge]
    exact Or.inl (abs_pyRound_sub_le e)
  · have h0 : pyRound e ≤ 0 := by omega
    have habs := abs_le.mp (abs_pyRound_sub_le e)
    have h0q : ((pyRound e : ℤ) : ℚ) ≤ 0 := by exact_mod_cast h0
    exact Or.inr ⟨by linarith [habs.1], max_eq_left (by omega)⟩

/-- C5: completing an `in_progress` task with `started_at = some s` at time
`now` sets status `completed`, `completed_at = now`, and `duration_minutes =
max 1 (round ((now - s) / 60))` — the elapsed minutes rounded to a nearest
integer and clamped below by 1 (any value below 1 minute, and only such a
value, is reported as 1). -/
theorem C5_complete_duration (role : String) (uid : Nat) (now s : ℚ)
    (t : PatientTask)
    (hrole : role = "patient") (hown : t.patient = uid)
    (hst : t.status = "in_progress") (hstart : t.started_at = some s) :
    (complete_task role uid now t).status = "completed" ∧
    (complete_task role uid now t).completed_at = some now ∧
    (complete_task role uid now t).duration_minutes
      = some (max 1 (pyRound ((now - s) / 60))) ∧
    (∀ d : ℤ, (complete_task role uid now t).duration_minutes = some d →
      1 ≤ d ∧ (|((d : ℤ) : ℚ) - (now - s) / 60| ≤ 1/2 ∨
        ((now - s) / 60 < 1 ∧ d = 1))) := by
  subst hrole
  have hcomp : complete_task "patient" uid now t =
      { t with duration_minutes := some (max 1 (pyRound ((now - s) / 60))),
               completed_at := some now, status := "completed" } := by
    simp [complete_task, hown, hst, hstart]
  refine ⟨by rw [hcomp], by rw [hcomp], by rw [hcomp], ?_⟩
  intro d hd
  rw [hcomp] at hd
  simp only [Option.some_inj] at hd
  subst hd
  exact max_one_pyRound_spec ((now - s) / 60)

theorem C5_complete_duration_witness :
    let t : PatientTask := ⟨4, "walk", "in_progress", some 0, none, none⟩
    (complete_task "patient" 4 90 t).status = "completed" ∧
    (complete_task "patient" 4 90 t).completed_at = some 90 ∧
    (complete_task "patient" 4 90 t).duration_minutes
      = some (max 1 (pyRound ((90 - 0) / 60))) ∧
    (complete_task "patient" 4 90 t).duration_minutes = some 2 :=
  ⟨(C5_complete_duration "patient" 4 90 0 _ rfl rfl rfl rfl).1,
   (C5_complete_duration "patient" 4 90 0 _ rfl rfl rfl rfl).2.1,
   (C5_complete_duration "patient" 4 90 0 _ rfl rfl rfl rfl).2.2.1,
   by simp [complete_task]; norm_num [pyRound]⟩

/-- C6: completing a task whose status is not `in_progress` is a no-op: the
whole record (status, started_at, completed_at, duration_minutes) is left
unchanged. -/
theorem C6_complete_noop (role : String) (uid : Nat) (now : ℚ)
    (t : PatientTask) (hst : t.status ≠ "in_progress") :
    complete_task role uid now t = t := by
  simp [complete_task, hst]

theorem C6_complete_noop_witness :
    (⟨4, "walk", "completed", some 0, some 60, some 1⟩ :
      PatientTask).status ≠ "in_progress" ∧
    complete_task "patient" 4 120
      (⟨4, "walk", "completed", some 0, some 60, some 1⟩ : PatientTask) =
      (⟨4, "walk", "completed", some 0, some 60, some 1⟩ : PatientTask) :=
  ⟨by decide, C6_complete_noop "patient" 4 120 _ (by decide)⟩

/-- C10: completing an `in_progress` task whose `started_at` is null does
not fail: `duration_minutes` becomes exactly 1, `completed_at` becomes `now`
and the status becomes `completed`. -/
theorem C10_complete_null_started (role : String) (uid : Nat) (now : ℚ)
    (t : PatientTask)
    (hrole : role = "patient") (hown : t.patient = uid)
    (hst : t.status = "in_progress") (hstart : t.started_at = none) :
    (complete_task role uid now t).duration_minutes = some 1 ∧
    (complete_task role uid now t).completed_at = some now ∧
    (complete_task role uid now t).status = "completed" := by
  subst hrole
  simp [complete_task, hown, hst, hstart]

theorem C10_complete_null_started_witness :
    (complete_task "patient" 4 33
      (⟨4, "walk", "in_progress", none, none, none⟩ :
        PatientTask)).duration_minutes = some 1 ∧
    (complete_task "patient" 4 33
      (⟨4, "walk", "in_progress", none, none, none⟩ :
        PatientTask)).completed_at = some 33 ∧
    (complete_task "patient" 4 33
      (⟨4, "walk", "in_progress", none, none, none⟩ :
        PatientTask)).status = "completed" :=
  C10_complete_null_started "patient" 4 33 _ rfl rfl rfl rfl

/-! ### Appointment / visit workflow -/

/-- A hospital record (only its name is read by the embedded handlers). -/
structure Hospital where
  name : String
deriving DecidableEq, Repr

/-- An appointment record (model `Appointment`): patient and doctor user
ids, the appointment date, the optional hospital and the status string. -/
structure Appointment where
  patient : Nat
  doctor : Nat
  date : Nat
  hospital : Option Hospital
  status : String
deriving DecidableEq, Repr

/-- A visit record (model `VisitRecord`) as created by `log_visit_by_id`. -/
structure VisitRecord where
  doctor : Nat
  patient : Nat
  visit_date : Nat
  hospital_name : String
  doctor_name : String
  current_status : String
  improvement_score : Int
  doctor_notes : String
deriving DecidableEq, Repr

/-- Handler `confirm_appointment` (views.py:704-722).  A non-doctor role is
redirected away; an appointment not owned by the acting doctor raises 404;
a `pending` appointment becomes `confirmed`; anything else is a warning
no-op. -/
def confirm_appointment (role : String) (userId : Nat) (ap : Appointment) :
    Appointment :=
  if role ≠ "doctor" then ap
  else if ap.doctor ≠ userId then ap
  else if ap.status = "pending" then { ap with status := "confirmed" }
  else ap

/-- Handler `cancel_appointment` (views.py:725-735).  After the role and ownership
guards, the status is set to `cancelled` with no check of the prior
status. -/
def cancel_appointment (role : String) (userId : Nat) (ap : Appointment) :
    Appointment :=
  if role ≠ "doctor" then ap
  else if ap.doctor ≠ userId then ap
  else { ap with status := "cancelled" }

/-- The `VisitRecord.objects.create(...)` call inside `log_visit_by_id`
(views.py:757-766). -/
def mkVisitRecord (userId : Nat) (userFullName : String) (ap : Appointment) :
    VisitRecord :=
  { doctor := userId
    patient := ap.patient
    visit_date := ap.date
    hospital_name := match ap.hospital with | some h => h.name | none => ""
    doctor_name := userFullName
    current_status := "pending"
    improvement_score := 0
    doctor_notes := "Visit logged. Awaiting update." }

/-- The duplicate pre-check of `log_visit_by_id` (views.py:746-750): does a
visit record with the same doctor, patient and date already exist? -/
def visit_exists (userId : Nat) (records : List VisitRecord)
    (ap : Appointment) : Bool :=
  records.any fun v =>
    v.doctor == userId && v.patient == ap.patient && v.visit_date == ap.date

/-- Handler `log_visit_by_id` (views.py:738-775) over the list of persisted visit
records.  The role/ownership guards and the duplicate pre-check leave the
store untouched; otherwise one record is created and the appointment is
marked `completed`. -/
def log_visit_by_id (role : String) (userId : Nat) (userFullName : String)
    (records : List VisitRecord) (ap : Appointment) :
    List VisitRecord × Appointment :=
  if role ≠ "doctor" then (records, ap)
  else if ap.doctor ≠ userId then (records, ap)
  else if visit_exists userId records ap then (records, ap)
  else (records ++ [mkVisitRecord userId userFullName ap],
        { ap with status := "completed" })

/-- C7: for a doctor acting on their own appointment, confirm moves
`pending` to `confirmed` and leaves any non-`pending` appointment entirely
unchanged, while cancel sets the status to `cancelled` whatever the prior
status. -/
theorem C7_confirm_and_cancel (role : String) (uid : Nat) (ap : Appointment)
    (hrole : role = "doctor") (hown : ap.doctor = uid) :
    (ap.status = "pending" →
      (confirm_appointment role uid ap).status = "confirmed") ∧
    (ap.status ≠ "pending" → confirm_appointment role uid ap = ap) ∧
    (cancel_appointment role uid ap).status = "cancelled" := by
  subst hrole
  refine ⟨fun hp => ?_, fun hp => ?_, ?_⟩
  · simp [confirm_appointment, hown, hp]
  · simp [confirm_appointment, hown, hp]
  · simp [cancel_appointment, hown]

theorem C7_confirm_and_cancel_witness :
    ("doctor" = "doctor") ∧
    ((⟨2, 9, 100, none, "pending"⟩ : Appointment).doctor = 9) ∧
    (((⟨2, 9, 100, none, "pending"⟩ : Appointment).status = "pending" →
      (confirm_appointment "doctor" 9
        (⟨2, 9, 100, none, "pending"⟩ : Appointment)).status = "confirmed") ∧
    ((⟨2, 9, 100, none, "pending"⟩ : Appointment).status ≠ "pending" →
      confirm_appointment "doctor" 9 (⟨2, 9, 100, none, "pending"⟩ : Appointment)
        = (⟨2, 9, 100, none, "pending"⟩ : Appointment)) ∧
    (cancel_appointment "doctor" 9
      (⟨2, 9, 100, none, "pending"⟩ : Appointment)).status = "cancelled") :=
  ⟨rfl, rfl, C7_confirm_and_cancel "doctor" 9 _ rfl rfl⟩

/-- C8: for a doctor acting on their own appointment, logging a visit is
rejected with no state change when a visit record with the same doctor,
patient and date already exists, and otherwise appends exactly one new
visit record — keyed by that doctor, the appointment's patient and the
appointment's date — and marks the appointment `completed`. -/
theorem C8_log_visit (role : String) (uid : Nat) (nm : String)
    (records : List VisitRecord) (ap : Appointment)
    (hrole : role = "doctor") (hown : ap.doctor = uid) :
    (visit_exists uid records ap = true →
      log_visit_by_id role uid nm records ap = (records, ap)) ∧
    (visit_exists uid records ap = false →
      log_visit_by_id role uid nm records ap =
        (records ++ [mkVisitRecord uid nm ap],
          { ap with status := "completed" }) ∧
      (mkVisitRecord uid nm ap).doctor = uid ∧
      (mkVisitRecord uid nm ap).patient = ap.patient ∧
      (mkVisitRecord uid nm ap).visit_date = ap.date) := by
  subst hrole
  refine ⟨fun hx => ?_, fun hx => ⟨?_, rfl, rfl, rfl⟩⟩
  · simp [log_visit_by_id, hown, hx]
  · simp [log_visit_by_id, hown, hx]

theorem C8_log_visit_witness :
    ("doctor" = "doctor") ∧
    ((⟨2, 9, 100, none, "confirmed"⟩ : Appointment).doctor = 9) ∧
    (visit_exists 9 ([] : List VisitRecord)
      (⟨2, 9, 100, none, "confirmed"⟩ : Appointment) = false) ∧
    log_visit_by_id "doctor" 9 "Dr. A" ([] : List VisitRecord)
      (⟨2, 9, 100, none, "confirmed"⟩ : Appointment) =
      ([] ++ [mkVisitRecord 9 "Dr. A" (⟨2, 9, 100, none, "confirmed"⟩ : Appointment)],
        { (⟨2, 9, 100, none, "confirmed"⟩ : Appointment) with status := "completed" }) :=
  ⟨rfl, rfl, by decide,
    ((C8_log_visit "doctor" 9 "Dr. A" [] _ rfl rfl).2 (by decide)).1⟩

/-! ### Messaging -/

/-- A direct message record (model `Message`). -/
structure Message where
  id : Nat
  sender : Nat
  receiver : Nat
  content : String
  timestamp : Nat
  is_deleted : Bool
deriving DecidableEq, Repr

/-- Handler `delete_message` (views.py:902-907) over the list of persisted
messages.  `get_object_or_404(Message, id=message_id, sender=request.user)`
raises 404 — returning `false` and an unchanged store — unless a message
with that id and the acting user as sender exists; on success that
message's `is_deleted` flag is set and the handler answers `deleted`
(returned as `true`). -/
def delete_message (userId messageId : Nat) (msgs : List Message) :
    List Message × Bool :=
  if msgs.any (fun m => m.id == messageId && m.sender == userId) then
    (msgs.map fun m =>
      if m.id == messageId && m.sender == userId then
        { m with is_deleted := true }
      else m,
     true)
  else (msgs, false)

/-- The conversation query of `message_box` (views.py:875-879): messages
whose sender and receiver both lie in `{userId, selectedId}` and whose
`is_deleted` flag is false, ordered by timestamp. -/
def message_box_conversation (userId selectedId : Nat)
    (msgs : List Message) : List Message :=
  (msgs.filter fun m =>
    (m.sender == userId || m.sender == selectedId) &&
    (m.receiver == userId || m.receiver == selectedId) &&
    !m.is_deleted).mergeSort fun m1 m2 => m1.timestamp ≤ m2.timestamp

/-- C9: a delete request by a non-sender is rejected as not-found and
leaves the store unchanged; a delete by the sender answers `deleted` and
sets `is_deleted` on the targeted message without removing any record; and
every two-party conversation retrieval excludes messages whose
`is_deleted` flag is true. -/
theorem C9_soft_delete (userId messageId : Nat) (msgs : List Message) :
    ((∀ m ∈ msgs, m.id = messageId → m.sender ≠ userId) →
      delete_message userId messageId msgs = (msgs, false)) ∧
    ((∃ m ∈ msgs, m.id = messageId ∧ m.sender = userId) →
      (delete_message userId messageId msgs).2 = true ∧
      (delete_message userId messageId msgs).1.length = msgs.length ∧
      ∀ m ∈ (delete_message userId messageId msgs).1,
        m.id = messageId → m.sender = userId → m.is_deleted = true) ∧
    (∀ (store : List Message) (u1 u2 : Nat),
      ∀ m ∈ message_box_conversation u1 u2 store, m.is_deleted = false) := by
  refine ⟨fun h => ?_, fun h => ?_, fun store u1 u2 m hm => ?_⟩
  · have hany : msgs.any (fun m => m.id == messageId && m.sender == userId)
        = false := by
      rw [List.any_eq_false]
      intro m hm
      simp only [Bool.and_eq_true, beq_iff_eq, not_and]
      exact fun hid hs => h m hm hid hs
    simp [delete_message, hany]
  · obtain ⟨m0, hm0, hid0, hs0⟩ := h
    have hany : msgs.any (fun m => m.id == messageId && m.sender == userId)
        = true :=
      List.any_eq_true.mpr ⟨m0, hm0, by simp [hid0, hs0]⟩
    have hdel : delete_message userId messageId msgs =
        (msgs.map fun m =>
          if m.id == messageId && m.sender == userId then
            { m with is_deleted := true }
          else m,
         true) := by
      simp [delete_message, hany]
    rw [hdel]
    refine ⟨rfl, List.length_map _ _, fun m hm hid hs => ?_⟩
    obtain ⟨m1, hm1, hf⟩ := List.mem_map.mp hm
    by_cases hc : (m1.id == messageId && m1.sender == userId) = true
    · rw [if_pos hc] at hf
      rw [← hf]
    · rw [if_neg hc] at hf
      subst hf
      simp [hid, hs] at hc
  · unfold message_box_conversation at hm
    rw [List.mem_mergeSort] at hm
    have hp := List.of_mem_filter hm
    simp only [Bool.and_eq_true, Bool.not_eq_true'] at hp
    exact hp.2

theorem C9_soft_delete_witness :
    (∃ m ∈ ([⟨5, 1, 2, "hi", 10, false⟩] : List Message),
      m.id = 5 ∧ m.sender = 1) ∧
    ((delete_message 1 5 ([⟨5, 1, 2, "hi", 10, false⟩] : List Message)).2
        = true ∧
      (delete_message 1 5
        ([⟨5, 1, 2, "hi", 10, false⟩] : List Message)).1.length =
        ([⟨5, 1, 2, "hi", 10, false⟩] : List Message).length ∧
      ∀ m ∈ (delete_message 1 5
          ([⟨5, 1, 2, "hi", 10, false⟩] : List Message)).1,
        m.id = 5 → m.sender = 1 → m.is_deleted = true) :=
  ⟨⟨⟨5, 1, 2, "hi", 10, false⟩, List.mem_singleton.mpr rfl, rfl, rfl⟩,
    (C9_soft_delete 1 5 _).2.1
      ⟨⟨5, 1, 2, "hi", 10, false⟩, List.mem_singleton.mpr rfl, rfl, rfl⟩⟩

end HealthTracker
